import Mathlib

/-!
Shallow embedding of `src/scripts/detect_plate.py` (license-plate batch
detection driver). Pure functions of the script become Lean functions;
the external collaborators (cv2, loguru, the Detection model class) are
modelled as explicit behaviour records the driver is parameterised by, and
every observable effect (log lines, detector calls, file writes) is
recorded in an explicit log structure. Python exceptions are modelled with
`Except String`; the script has no try/except, so `Except` short-circuiting
mirrors an uncaught exception aborting the batch loop.
-/

/-- Pixel buffer: height, width and flat pixel data, standing for the numpy
array returned by cv2.imread. -/
structure Image where
  height : Nat
  width : Nat
  data : List Nat
deriving DecidableEq, Repr, Inhabited

/-- Value of the weights option after argparse. With nargs set to plus,
argparse stores the list of provided strings when the flag is present, but
stores the default value verbatim when the flag is omitted; the default in
the script is the bare string "object.pt", not a list. -/
inductive WeightsVal where
  | str (s : String)
  | list (l : List String)
deriving DecidableEq, Repr

/-- Observation helper: whether a weights value is a list of strings. -/
def WeightsVal.isList : WeightsVal → Bool
  | .str _ => false
  | .list _ => true

/-- Raw command line: for each flag, `none` means the flag was omitted and
the argparse default applies; `some v` means the flag was supplied with
value v. For nargs-plus flags argparse guarantees a supplied list is
nonempty, which we carry as a hypothesis where it matters. -/
structure RawArgs where
  weights : Option (List String) := none
  source : Option String := none
  des : Option String := none
  imgsz : Option (List Int) := none
  conf_thres : Option ℚ := none
  iou_thres : Option ℚ := none
  max_det : Option Int := none
  device : Option String := none
  keep_size : Bool := false
deriving Repr

/-- Resolved options, mirroring the argparse Namespace after parse_opt
returns. -/
structure Opt where
  weights : WeightsVal
  source : String
  des : String
  imgsz : List Int
  conf_thres : ℚ
  iou_thres : ℚ
  max_det : Int
  device : String
  keep_size : Bool
deriving DecidableEq, Repr

/-- Embedding of parse_opt (src/scripts/detect_plate.py lines 13-58):
argparse defaults, then the single square-expansion step
`if len(opt.imgsz) == 1: opt.imgsz = opt.imgsz * 2`. No other
normalisation or validation is performed. Python list repetition
`l * 2` is `l ++ l`. -/
def parse_opt (a : RawArgs) : Opt :=
  let imgsz0 := a.imgsz.getD [1280]
  { weights := match a.weights with
      | some l => .list l
      | none => .str "object.pt"
    source := a.source.getD "ch_imgs"
    des := a.des.getD "ch_out"
    imgsz := if imgsz0.length = 1 then imgsz0 ++ imgsz0 else imgsz0
    conf_thres := a.conf_thres.getD 0.1
    iou_thres := a.iou_thres.getD 0.5
    max_det := a.max_det.getD 1000
    device := a.device.getD "cpu"
    keep_size := a.keep_size }

/-- Python str.lower, per character (ASCII case mapping). -/
def py_lower (s : String) : String :=
  String.mk (s.data.map Char.toLower)

/-- Python str.endswith for a single suffix, computed on character lists so
it evaluates by kernel reduction. -/
def py_endswith (s suf : String) : Bool :=
  s.data.drop (s.data.length - suf.data.length) == suf.data

/-- Python str.startswith for a single candidate, on character lists. -/
def py_startswith (s p : String) : Bool :=
  s.data.take p.data.length == p.data

/-- Embedding of is_image_file (lines 61-75):
`filename.lower().endswith((".png", ".jpg", ".jpeg", ".bmp"))`; endswith on
a tuple is the disjunction of endswith on each member. -/
def is_image_file (filename : String) : Bool :=
  let l := py_lower filename
  py_endswith l ".png" || py_endswith l ".jpg" || py_endswith l ".jpeg" || py_endswith l ".bmp"

/-- Embedding of os.path.join for two components (posixpath.join): an
absolute second component replaces the first; otherwise a separator is
inserted unless the first already ends with one or is empty. -/
def path_join (a b : String) : String :=
  if py_startswith b "/" then b
  else if a = "" || py_endswith a "/" then a ++ b
  else a ++ "/" ++ b

/-- One detection as yielded by the detector: iterated in main as
`for name, conf, box in results`. Box coordinates are rationals standing for
the floats the model emits; main converts them with `map(int, box)`. -/
structure Det where
  name : String
  conf : ℚ
  box : List ℚ
deriving DecidableEq, Repr

/-- Python int() on a rational: truncation toward zero. -/
def py_int (q : ℚ) : Int :=
  if 0 ≤ q then ⌊q⌋ else ⌈q⌉

/-- The unpacking `x1, y1, x2, y2 = map(int, box)`: raises ValueError unless
the box has exactly four coordinates. -/
def unpack_box (box : List ℚ) : Except String (Int × Int × Int × Int) :=
  match box.map py_int with
  | [a, b, c, d] => .ok (a, b, c, d)
  | _ => .error "ValueError: cannot unpack box into four coordinates"

/-- Behaviour of the cv2 library as the script uses it. rectangle and
putText mutate their canvas argument in place; here they are functions from
the canvas to the updated canvas, and the driver rebinds. imwrite returns a
Bool (False on an unwritable path) and can also raise. imread returns none
when the file cannot be decoded. -/
structure Cv where
  imread : String → Option Image
  rectangle : Image → Int × Int → Int × Int → Nat × Nat × Nat → Nat → Image
  putText : Image → String → Int × Int → Nat → ℚ → Nat × Nat × Nat → Nat → Image
  imwrite : String → Image → Except String Bool

/-- cv2.FONT_HERSHEY_SIMPLEX. -/
def FONT_HERSHEY_SIMPLEX : Nat := 0

/-- Arguments the script passes to the Detection constructor
(src/scripts/detect_plate.py lines 94-100): size, weights_path, device,
iou_thres, conf_thres. -/
structure DetectorConfig where
  size : List Int
  weights_path : WeightsVal
  device : String
  iou_thres : ℚ
  conf_thres : ℚ
deriving DecidableEq, Repr

/-- The constructor call `Detection(size=opt.imgsz, weights_path=opt.weights,
device=opt.device, iou_thres=opt.iou_thres, conf_thres=opt.conf_thres)`. -/
def mkDetectorConfig (opt : Opt) : DetectorConfig :=
  { size := opt.imgsz
    weights_path := opt.weights
    device := opt.device
    iou_thres := opt.iou_thres
    conf_thres := opt.conf_thres }

/-- Behaviour of a constructed detector: detect(img, bb_scale) returns a
results list and the resized image, or raises. -/
structure DetectorBehavior where
  detect : Image → Bool → Except String (List Det × Image)

/-- Observable record of one run: directories created, detector
constructions, loguru warning/debug/info lines in order of emission,
arguments of each detect call, and files actually written (imwrite calls
that returned True). -/
structure RunLog where
  made_dirs : List String
  constructed : List DetectorConfig
  warnings : List String
  debugs : List String
  infos : List String
  detect_args : List (Image × Bool)
  written : List (String × Image)
deriving DecidableEq, Repr

/-- Canvas selection in main (lines 117-118): after detect returns,
`if opt.keep_size: resized_img = img` rebinds the canvas to the original
decoded image; otherwise the canvas stays the detector output. -/
def chosen_canvas (keep_size : Bool) (img resized0 : Image) : Image :=
  if keep_size then img else resized0

/-- The annotation loop in main (lines 120-136): for each detection, unpack
the box (fallible), draw the rectangle and the label text, and emit a debug
line; the canvas threads through the cv2 mutations. -/
def annotate_loop (cv : Cv) (canvas : Image) : List Det → Except String (Image × List String)
  | [] => .ok (canvas, [])
  | d :: rest =>
    match unpack_box d.box with
    | .error e => .error e
    | .ok (x1, y1, x2, y2) =>
      let label := d.name
      let c1 := cv.rectangle canvas (x1, y1) (x2, y2) (0, 0, 255) 1
      let c2 := cv.putText c1 label (x1, y1 - 3) FONT_HERSHEY_SIMPLEX 0.5 (255, 0, 255) 2
      let msg := "Detected: " ++ label ++ " at [" ++ toString x1 ++ ", " ++ toString y1 ++
        ", " ++ toString x2 ++ ", " ++ toString y2 ++ "]"
      match annotate_loop cv c2 rest with
      | .error e => .error e
      | .ok (c3, msgs) => .ok (c3, msg :: msgs)

/-- One iteration of the main loop (lines 102-140) on one directory entry.
Non-image names and unreadable files are logged and skipped; everything
after that (detect, box unpacking, imwrite) can raise, and a raise
propagates as there is no try/except in the script. The info line is
emitted regardless of the Bool imwrite returns; only a True return records
an actual write. -/
def process_one (opt : Opt) (cv : Cv) (det : DetectorBehavior) (log : RunLog)
    (img_name : String) : Except String RunLog :=
  if is_image_file img_name = false then
    .ok { log with warnings := log.warnings ++ ["Skipped non-image file: " ++ img_name] }
  else
    let img_path := path_join opt.source img_name
    match cv.imread img_path with
    | none =>
      .ok { log with warnings := log.warnings ++ ["Cannot read image: " ++ img_path] }
    | some img =>
      let log1 := { log with
        debugs := log.debugs ++ ["Running detection on image: " ++ img_name]
        detect_args := log.detect_args ++ [(img, opt.keep_size)] }
      match det.detect img opt.keep_size with
      | .error e => .error e
      | .ok (results, resized0) =>
        let canvas := chosen_canvas opt.keep_size img resized0
        match annotate_loop cv canvas results with
        | .error e => .error e
        | .ok (annotated, dbgs) =>
          let output_path := path_join opt.des img_name
          match cv.imwrite output_path annotated with
          | .error e => .error e
          | .ok wrote =>
            .ok { log1 with
              debugs := log1.debugs ++ dbgs
              written := log1.written ++ (if wrote then [(output_path, annotated)] else [])
              infos := log1.infos ++ ["Saved result to " ++ output_path] }

/-- The batch loop over the directory listing. An uncaught exception on one
entry aborts the whole remainder, exactly as an uncaught Python exception
leaves the for loop. -/
def run_images (opt : Opt) (cv : Cv) (det : DetectorBehavior) :
    List String → RunLog → Except String RunLog
  | [], log => .ok log
  | n :: rest, log =>
    match process_one opt cv det log n with
    | .error e => .error e
    | .ok log2 => run_images opt cv det rest log2

/-- Embedding of main (lines 78-140): parse options, create the output
directory, construct the detector once from the resolved options, and fold
the per-image step over the directory listing (os.listdir of opt.source,
supplied as the listing parameter). -/
def run_main (raw : RawArgs) (cv : Cv) (mkDet : DetectorConfig → DetectorBehavior)
    (listing : List String) : Except String RunLog :=
  let opt := parse_opt raw
  let cfg := mkDetectorConfig opt
  let det := mkDet cfg
  run_images opt cv det listing
    { made_dirs := [opt.des], constructed := [cfg], warnings := [], debugs := [],
      infos := [], detect_args := [], written := [] }

/-- Heap of pixel buffers, for the aliasing-sensitive reading of the detect
call: numpy arrays are mutable, and `detector.detect(img.copy(), ...)` may
mutate its argument buffer without touching the buffer that `img` still
refers to. References are indices into the heap. -/
def Heap : Type := List Image

/-- Allocate a fresh buffer, returning the new heap and its reference. -/
def Heap.alloc (h : Heap) (i : Image) : Heap × Nat :=
  (List.append h [i], List.length h)

/-- Read the buffer a reference points to. -/
def Heap.read (h : Heap) (r : Nat) : Image :=
  List.getD h r default

/-- Overwrite the buffer a reference points to. -/
def Heap.write (h : Heap) (r : Nat) (i : Image) : Heap :=
  List.set h r i

/-- Behaviour of the external detector at the buffer level: it may mutate
the argument buffer arbitrarily (mutate), and computes its results and its
returned resized image from the argument contents it was given. -/
structure HeapDetect where
  mutate : Image → Image
  results : Image → Bool → List Det
  resized : Image → Bool → Image

/-- Outcome of the load / copy / detect / choose-canvas stage of one main
loop iteration, with buffer references made explicit. -/
structure DetectStage where
  heap : Heap
  img_ref : Nat
  copy_ref : Nat
  canvas_ref : Nat
  results : List Det

/-- Buffer-level embedding of main lines 108-118 for one decoded image:
img holds the decoded buffer; `img.copy()` allocates a fresh buffer with the
same contents; detect receives the copy reference and may mutate that
buffer; the returned resized image is a further buffer; finally
`if opt.keep_size: resized_img = img` rebinds the canvas reference to the
original buffer when keep_size is set. -/
def detect_stage (d : HeapDetect) (decoded : Image) (keep_size : Bool) : DetectStage :=
  let h0 : Heap := []
  let a1 := h0.alloc decoded
  let h1 := a1.1
  let img_ref := a1.2
  let a2 := h1.alloc (h1.read img_ref)
  let h2 := a2.1
  let copy_ref := a2.2
  let arg := h2.read copy_ref
  let h3 := h2.write copy_ref (d.mutate arg)
  let a3 := h3.alloc (d.resized arg keep_size)
  let h4 := a3.1
  let resized_ref := a3.2
  let canvas_ref := if keep_size then img_ref else resized_ref
  { heap := h4, img_ref := img_ref, copy_ref := copy_ref,
    canvas_ref := canvas_ref, results := d.results arg keep_size }

/-- Modelled from the spec: resolution of the inference size following the
specification words — a single dimension expands to a square, two
dimensions are used verbatim as (height, width), and any other arity is
rejected as a configuration error. The code under src/ performs no such
rejection; this definition exists only to compare code behaviour with the
specification. -/
def spec_resolve_imgsz : List Int → Option (Int × Int)
  | [d] => some (d, d)
  | [h, w] => some (h, w)
  | _ => none

/-- Fixture: a 2 by 2 decoded image. -/
def img0 : Image := { height := 2, width := 2, data := [0, 0, 0, 0] }

/-- Fixture: a 1 by 1 image standing for a detector-resized buffer. -/
def img1 : Image := { height := 1, width := 1, data := [7] }

/-- Fixture: cv2 behaviour where every path decodes to img0, drawing leaves
the canvas unchanged, and every write succeeds. -/
def cv_ok : Cv :=
  { imread := fun _ => some img0
    rectangle := fun c _ _ _ _ => c
    putText := fun c _ _ _ _ _ _ => c
    imwrite := fun _ _ => .ok true }

/-- Fixture: cv2 behaviour where no path decodes. -/
def cv_none : Cv :=
  { imread := fun _ => none
    rectangle := fun c _ _ _ _ => c
    putText := fun c _ _ _ _ _ _ => c
    imwrite := fun _ _ => .ok true }

/-- Fixture: detector returning no detections and img1 as resized buffer. -/
def det_ok : DetectorBehavior := { detect := fun _ _ => .ok ([], img1) }

/-- Fixture: detector raising on every call. -/
def det_raise : DetectorBehavior := { detect := fun _ _ => .error "detection failed" }

/-- Fixture: detector construction yielding det_ok for any config. -/
def mk_det_ok : DetectorConfig → DetectorBehavior := fun _ => det_ok

/-- Fixture: detector construction yielding det_raise for any config. -/
def mk_det_raise : DetectorConfig → DetectorBehavior := fun _ => det_raise

/-- Fixture: detector returning one detection whose box has only three
coordinates, so the unpacking `x1, y1, x2, y2 = map(int, box)` raises. -/
def det_badbox : DetectorBehavior :=
  { detect := fun _ _ => .ok ([{ name := "plate", conf := 0.9, box := [1, 2, 3] }], img1) }

/-- Fixture: cv2 behaviour where every path decodes to img0, drawing leaves
the canvas unchanged, and every write raises. -/
def cv_badwrite : Cv :=
  { imread := fun _ => some img0
    rectangle := fun c _ _ _ _ => c
    putText := fun c _ _ _ _ _ _ => c
    imwrite := fun _ _ => .error "imwrite failed" }

/-- Fixture: the empty run log. -/
def runlog0 : RunLog :=
  { made_dirs := [], constructed := [], warnings := [], debugs := [], infos := [],
    detect_args := [], written := [] }

def cfg0 : DetectorConfig :=
  { size := [1280, 1280], weights_path := .str "object.pt", device := "cpu",
    iou_thres := 0.5, conf_thres := 0.1 }

/-- C1: for every processed image, the driver passes
scaleBoxesToOriginal = keepOriginalSize to detect and annotates the
original decoded image exactly when keep_size is true, otherwise the
returned resized buffer: a successful iteration records the detect call at
(img, opt.keep_size), and the persisted buffer is the annotation of
chosen_canvas opt.keep_size img resized0. -/
theorem c1_flag_and_canvas_agree
    (opt : Opt) (cv : Cv) (det : DetectorBehavior) (log : RunLog) (n : String)
    (img resized0 drawn : Image) (results : List Det) (dbgs : List String) (wrote : Bool)
    (h1 : is_image_file n = true)
    (h2 : cv.imread (path_join opt.source n) = some img)
    (h3 : det.detect img opt.keep_size = .ok (results, resized0))
    (h4 : annotate_loop cv (chosen_canvas opt.keep_size img resized0) results = .ok (drawn, dbgs))
    (h5 : cv.imwrite (path_join opt.des n) drawn = .ok wrote) :
    process_one opt cv det log n = .ok { log with
      debugs := log.debugs ++ ["Running detection on image: " ++ n] ++ dbgs
      detect_args := log.detect_args ++ [(img, opt.keep_size)]
      written := log.written ++ (if wrote then [(path_join opt.des n, drawn)] else [])
      infos := log.infos ++ ["Saved result to " ++ path_join opt.des n] } := by
  simp [process_one, h1, h2, h3, h4, h5]

/-- Witness for c1_flag_and_canvas_agree at a concrete run. -/
theorem c1_witness :
    process_one (parse_opt {}) cv_ok det_ok runlog0 "a.jpg" = .ok { runlog0 with
      debugs := ["Running detection on image: a.jpg"]
      detect_args := [(img0, false)]
      written := [("ch_out/a.jpg", img1)]
      infos := ["Saved result to ch_out/a.jpg"] } := by
  exact c1_flag_and_canvas_agree (parse_opt {}) cv_ok det_ok runlog0 "a.jpg"
    img0 img1 img1 [] [] true (by decide) rfl rfl rfl rfl

/-- C6: a single-element imgsz list [d] resolves to the square [d, d]
(Python `opt.imgsz * 2` on a one-element list). -/
theorem c6_single_imgsz_squared (d : Int) (raw : RawArgs) :
    (parse_opt { raw with imgsz := some [d] }).imgsz = [d, d] := by
  simp [parse_opt]

/-- C7: a filename is classified as a supported image exactly when its
lowercased form ends with .png, .jpg, .jpeg or .bmp, and every candidate
not so classified is skipped with a warning, writes nothing, and the loop
continues with an ok result. -/
theorem c7_extension_allow_list :
    (∀ n : String, is_image_file n =
      (py_endswith (py_lower n) ".png" || py_endswith (py_lower n) ".jpg" ||
        py_endswith (py_lower n) ".jpeg" || py_endswith (py_lower n) ".bmp")) ∧
    (∀ (opt : Opt) (cv : Cv) (det : DetectorBehavior) (log : RunLog) (n : String),
      is_image_file n = false →
      process_one opt cv det log n =
        .ok { log with warnings := log.warnings ++ ["Skipped non-image file: " ++ n] }) := by
  constructor
  · intro n
    rfl
  · intro opt cv det log n h
    simp [process_one, h]

/-- Witness for c7_extension_allow_list on the non-image candidate
note.txt. -/
theorem c7_witness :
    process_one (parse_opt {}) cv_ok det_ok runlog0 "note.txt" =
      .ok { runlog0 with warnings := ["Skipped non-image file: note.txt"] } := by
  exact c7_extension_allow_list.2 (parse_opt {}) cv_ok det_ok runlog0 "note.txt" (by decide)

/-- C8: a supported-extension candidate whose file does not decode produces
a warning, no written output, and the batch continues with the remaining
candidates unchanged. -/
theorem c8_undecodable_skipped
    (opt : Opt) (cv : Cv) (det : DetectorBehavior) (log : RunLog) (n : String)
    (rest : List String)
    (h1 : is_image_file n = true)
    (h2 : cv.imread (path_join opt.source n) = none) :
    run_images opt cv det (n :: rest) log =
      run_images opt cv det rest
        { log with warnings := log.warnings ++ ["Cannot read image: " ++ path_join opt.source n] } := by
  simp [run_images, process_one, h1, h2]

/-- Witness for c8_undecodable_skipped at a concrete run. -/
theorem c8_witness :
    run_images (parse_opt {}) cv_none det_ok ["a.jpg"] runlog0 =
      run_images (parse_opt {}) cv_none det_ok []
        { runlog0 with warnings := ["Cannot read image: ch_imgs/a.jpg"] } := by
  exact c8_undecodable_skipped (parse_opt {}) cv_none det_ok runlog0 "a.jpg" [] (by decide) rfl

/-- C2 counterexample: a detection failure on the first candidate aborts
the whole batch (the second candidate is never reached and no log is
produced), contradicting the claim that every per-image error after
enumeration is logged and the batch continues. -/
theorem c2_counterexample :
    run_main ({} : RawArgs) cv_ok mk_det_raise ["a.jpg", "b.jpg"] = .error "detection failed" := by
  rfl

/-- C2 amended: the driver tolerates exactly the two error classes it
checks for — unsupported extension and failed decode — logging a warning
and continuing; an exception raised by the detect call, by the
box-unpacking step of the drawing loop, or by the write of the output file
is not caught and aborts the batch. -/
theorem c2_per_image_error_policy :
    (∀ (opt : Opt) (cv : Cv) (det : DetectorBehavior) (log : RunLog) (n : String)
      (rest : List String),
      is_image_file n = false →
      run_images opt cv det (n :: rest) log =
        run_images opt cv det rest
          { log with warnings := log.warnings ++ ["Skipped non-image file: " ++ n] }) ∧
    (∀ (opt : Opt) (cv : Cv) (det : DetectorBehavior) (log : RunLog) (n : String)
      (rest : List String),
      is_image_file n = true →
      cv.imread (path_join opt.source n) = none →
      run_images opt cv det (n :: rest) log =
        run_images opt cv det rest
          { log with warnings := log.warnings ++ ["Cannot read image: " ++ path_join opt.source n] }) ∧
    (∀ (opt : Opt) (cv : Cv) (det : DetectorBehavior) (log : RunLog) (n : String)
      (rest : List String) (img : Image) (e : String),
      is_image_file n = true →
      cv.imread (path_join opt.source n) = some img →
      det.detect img opt.keep_size = .error e →
      run_images opt cv det (n :: rest) log = .error e) ∧
    (∀ (opt : Opt) (cv : Cv) (det : DetectorBehavior) (log : RunLog) (n : String)
      (rest : List String) (img resized0 : Image) (results : List Det) (e : String),
      is_image_file n = true →
      cv.imread (path_join opt.source n) = some img →
      det.detect img opt.keep_size = .ok (results, resized0) →
      annotate_loop cv (chosen_canvas opt.keep_size img resized0) results = .error e →
      run_images opt cv det (n :: rest) log = .error e) ∧
    (∀ (opt : Opt) (cv : Cv) (det : DetectorBehavior) (log : RunLog) (n : String)
      (rest : List String) (img resized0 drawn : Image) (results : List Det)
      (dbgs : List String) (e : String),
      is_image_file n = true →
      cv.imread (path_join opt.source n) = some img →
      det.detect img opt.keep_size = .ok (results, resized0) →
      annotate_loop cv (chosen_canvas opt.keep_size img resized0) results = .ok (drawn, dbgs) →
      cv.imwrite (path_join opt.des n) drawn = .error e →
      run_images opt cv det (n :: rest) log = .error e) := by
  refine ⟨?_, ?_, ?_, ?_, ?_⟩
  · intro opt cv det log n rest h
    simp [run_images, process_one, h]
  · intro opt cv det log n rest h1 h2
    simp [run_images, process_one, h1, h2]
  · intro opt cv det log n rest img e h1 h2 h3
    simp [run_images, process_one, h1, h2, h3]
  · intro opt cv det log n rest img resized0 results e h1 h2 h3 h4
    simp [run_images, process_one, h1, h2, h3, h4]
  · intro opt cv det log n rest img resized0 drawn results dbgs e h1 h2 h3 h4 h5
    simp [run_images, process_one, h1, h2, h3, h4, h5]

/-- Witness for c2_per_image_error_policy: each tolerated class at a
concrete run, and a concrete aborting exception of each uncaught class —
detect, box unpacking, and output write. -/
theorem c2_witness :
    (run_images (parse_opt {}) cv_ok det_raise ["note.txt"] runlog0 =
      run_images (parse_opt {}) cv_ok det_raise []
        { runlog0 with warnings := ["Skipped non-image file: note.txt"] }) ∧
    (run_images (parse_opt {}) cv_none det_raise ["b.jpg"] runlog0 =
      run_images (parse_opt {}) cv_none det_raise []
        { runlog0 with warnings := ["Cannot read image: ch_imgs/b.jpg"] }) ∧
    (run_images (parse_opt {}) cv_ok det_raise ["b.jpg", "c.jpg"] runlog0 =
      .error "detection failed") ∧
    (run_images (parse_opt {}) cv_ok det_badbox ["b.jpg", "c.jpg"] runlog0 =
      .error "ValueError: cannot unpack box into four coordinates") ∧
    run_images (parse_opt {}) cv_badwrite det_ok ["b.jpg", "c.jpg"] runlog0 =
      .error "imwrite failed" := by
  refine ⟨?_, ?_, ?_, ?_, ?_⟩
  · exact c2_per_image_error_policy.1 (parse_opt {}) cv_ok det_raise runlog0 "note.txt" []
      (by decide)
  · exact c2_per_image_error_policy.2.1 (parse_opt {}) cv_none det_raise runlog0 "b.jpg" []
      (by decide) rfl
  · exact c2_per_image_error_policy.2.2.1 (parse_opt {}) cv_ok det_raise runlog0 "b.jpg"
      ["c.jpg"] img0 "detection failed" (by decide) rfl rfl
  · exact c2_per_image_error_policy.2.2.2.1 (parse_opt {}) cv_ok det_badbox runlog0 "b.jpg"
      ["c.jpg"] img0 img1 [{ name := "plate", conf := 0.9, box := [1, 2, 3] }]
      "ValueError: cannot unpack box into four coordinates" (by decide) rfl rfl rfl
  · exact c2_per_image_error_policy.2.2.2.2 (parse_opt {}) cv_badwrite det_ok runlog0 "b.jpg"
      ["c.jpg"] img0 img1 img1 [] [] "imwrite failed" (by decide) rfl rfl rfl rfl

/-- C3 counterexample: a three-element imgsz list is not rejected — it
passes through parse_opt unchanged (while the specification-side resolver
rejects it) and a run configured with it proceeds to process and persist an
image rather than failing fast. -/
theorem c3_counterexample :
    (parse_opt { imgsz := some [1, 2, 3] }).imgsz = [1, 2, 3] ∧
    spec_resolve_imgsz [1, 2, 3] = none ∧
    (run_main { imgsz := some [1, 2, 3] } cv_ok mk_det_ok ["a.jpg"]).toOption.map
      (fun l => l.written.length) = some 1 := by
  refine ⟨by decide, rfl, by rfl⟩

/-- C3 amended: a two-element imgsz resolves to (h, w) unchanged, but
other arities are not rejected: parse_opt passes every list whose length is
not 1 through unchanged, with no configuration error. -/
theorem c3_imgsz_resolution :
    (∀ (h w : Int) (raw : RawArgs), (parse_opt { raw with imgsz := some [h, w] }).imgsz = [h, w]) ∧
    (∀ (l : List Int) (raw : RawArgs), l.length ≠ 1 →
      (parse_opt { raw with imgsz := some l }).imgsz = l) := by
  constructor
  · intro h w raw
    simp [parse_opt]
  · intro l raw h
    simp [parse_opt, h]

/-- Witness for c3_imgsz_resolution at concrete arities two and three. -/
theorem c3_witness :
    (parse_opt { imgsz := some [640, 480] }).imgsz = [640, 480] ∧
    (parse_opt { imgsz := some [7, 8, 9] }).imgsz = [7, 8, 9] := by
  constructor
  · exact c3_imgsz_resolution.1 640 480 {}
  · exact c3_imgsz_resolution.2 [7, 8, 9] {} (by decide)

/-- C4 counterexample: a confidence threshold of 2 lies outside [0, 1], yet
configuration resolution accepts it, the detector is constructed with it,
and an image is processed and persisted — there is no fail-fast validation. -/
theorem c4_counterexample :
    (parse_opt { conf_thres := some 2 }).conf_thres = 2 ∧
    ¬ ((parse_opt { conf_thres := some 2 }).conf_thres ≤ 1) ∧
    (run_main { conf_thres := some 2 } cv_ok mk_det_ok ["a.jpg"]).toOption.map
      (fun l => (l.constructed, l.written.length)) =
      some ([{ cfg0 with conf_thres := 2 }], 1) := by
  refine ⟨rfl, by decide, by rfl⟩

/-- C4 amended: the confidence and IoU thresholds are passed through to the
detector construction entirely unvalidated: whatever rational values the
caller supplies, in range or not, appear verbatim in the constructed
detector configuration. -/
theorem c4_thresholds_unvalidated (q r : ℚ) (raw : RawArgs) :
    (mkDetectorConfig (parse_opt { raw with conf_thres := some q, iou_thres := some r })).conf_thres
      = q ∧
    (mkDetectorConfig (parse_opt { raw with conf_thres := some q, iou_thres := some r })).iou_thres
      = r := by
  exact ⟨rfl, rfl⟩

/-- Helper: a successful per-image step never changes the record of
detector constructions. -/
theorem process_one_ok_constructed
    (opt : Opt) (cv : Cv) (det : DetectorBehavior) (log : RunLog) (n : String)
    (log2 : RunLog) (h : process_one opt cv det log n = .ok log2) :
    log2.constructed = log.constructed := by
  by_cases hi : is_image_file n = false
  · simp [process_one, hi] at h
    subst h
    rfl
  · have hi2 : is_image_file n = true := by
      simpa using hi
    cases hr : cv.imread (path_join opt.source n) with
    | none =>
      simp [process_one, hi2, hr] at h
      subst h
      rfl
    | some img =>
      cases hd : det.detect img opt.keep_size with
      | error e =>
        simp [process_one, hi2, hr, hd] at h
      | ok pr =>
        obtain ⟨results, resized0⟩ := pr
        cases ha : annotate_loop cv (chosen_canvas opt.keep_size img resized0) results with
        | error e =>
          simp [process_one, hi2, hr, hd, ha] at h
        | ok pr2 =>
          obtain ⟨drawn, dbgs⟩ := pr2
          cases hw : cv.imwrite (path_join opt.des n) drawn with
          | error e =>
            simp [process_one, hi2, hr, hd, ha, hw] at h
          | ok wrote =>
            simp [process_one, hi2, hr, hd, ha, hw] at h
            subst h
            rfl

/-- Helper: a completed batch never changes the record of detector
constructions made before the loop started. -/
theorem run_images_ok_constructed
    (listing : List String) (opt : Opt) (cv : Cv) (det : DetectorBehavior)
    (log log2 : RunLog) (h : run_images opt cv det listing log = .ok log2) :
    log2.constructed = log.constructed := by
  induction listing generalizing log with
  | nil =>
    simp [run_images] at h
    subst h
    rfl
  | cons n rest ih =>
    unfold run_images at h
    cases hp : process_one opt cv det log n with
    | error e =>
      rw [hp] at h
      exact absurd h (by simp)
    | ok log1 =>
      rw [hp] at h
      have h1 := ih log1 h
      rw [h1, process_one_ok_constructed opt cv det log n log1 hp]

/-- C5 amended: the detector is constructed exactly once per run, with the
resolved inference size, weights value, device, IoU threshold and
confidence threshold; the parsed --max-det value is not among the
constructor arguments. -/
theorem c5_constructed_once
    (raw : RawArgs) (cv : Cv) (mkDet : DetectorConfig → DetectorBehavior)
    (listing : List String) (log : RunLog)
    (h : run_main raw cv mkDet listing = .ok log) :
    log.constructed = [mkDetectorConfig (parse_opt raw)] := by
  unfold run_main at h
  exact run_images_ok_constructed listing _ _ _ _ _ h

/-- Witness for c5_constructed_once at a concrete run. -/
theorem c5_witness :
    ({ made_dirs := ["ch_out"], constructed := [cfg0], warnings := [],
       debugs := ["Running detection on image: a.jpg"],
       infos := ["Saved result to ch_out/a.jpg"], detect_args := [(img0, false)],
       written := [("ch_out/a.jpg", img1)] } : RunLog).constructed =
      [mkDetectorConfig (parse_opt {})] := by
  exact c5_constructed_once {} cv_ok mk_det_ok ["a.jpg"] _ rfl

/-- C5 counterexample: two runs whose raw arguments differ only in
--max-det (7 versus the default 1000) construct identical detectors and
behave identically throughout, so the detector construction cannot contain
the maxDetections value. -/
theorem c5_counterexample :
    (parse_opt { max_det := some 7 }).max_det = 7 ∧
    (parse_opt {}).max_det = 1000 ∧
    mkDetectorConfig (parse_opt { max_det := some 7 }) = mkDetectorConfig (parse_opt {}) ∧
    run_main { max_det := some 7 } cv_ok mk_det_ok ["a.jpg"] =
      run_main ({} : RawArgs) cv_ok mk_det_ok ["a.jpg"] := by
  exact ⟨rfl, rfl, rfl, rfl⟩

/-- C9 counterexample: when --weights is omitted the resolved weights value
is the bare default string object.pt, not a sequence of strings, and that
bare string is what reaches the detector construction. -/
theorem c9_counterexample :
    (parse_opt {}).weights = WeightsVal.str "object.pt" ∧
    WeightsVal.isList (parse_opt {}).weights = false ∧
    (mkDetectorConfig (parse_opt {})).weights_path = WeightsVal.str "object.pt" := by
  exact ⟨rfl, rfl, rfl⟩

/-- C9 amended: when --weights is supplied, the resolved value is the list
of given strings and is passed verbatim to the detector; when omitted,
argparse stores the default verbatim, the single string object.pt. -/
theorem c9_weights_value (l : List String) (raw : RawArgs) :
    (parse_opt { raw with weights := some l }).weights = WeightsVal.list l ∧
    (parse_opt { raw with weights := none }).weights = WeightsVal.str "object.pt" ∧
    (mkDetectorConfig (parse_opt { raw with weights := some l })).weights_path
      = WeightsVal.list l := by
  exact ⟨rfl, rfl, rfl⟩

/-- C10: detect is invoked on a copy of the decoded buffer: the copy is a
distinct reference, the original buffer is unchanged after the detect stage
no matter what mutation the detector applies to its argument, the detector
computes from the pristine decoded contents, and the chosen canvas holds
the pristine decoded contents whenever keep_size is true. -/
theorem c10_detect_on_copy (d : HeapDetect) (decoded : Image) (keep_size : Bool) :
    (detect_stage d decoded keep_size).copy_ref ≠ (detect_stage d decoded keep_size).img_ref ∧
    Heap.read (detect_stage d decoded keep_size).heap (detect_stage d decoded keep_size).img_ref
      = decoded ∧
    Heap.read (detect_stage d decoded keep_size).heap (detect_stage d decoded keep_size).canvas_ref
      = (if keep_size then decoded else d.resized decoded keep_size) ∧
    (detect_stage d decoded keep_size).results = d.results decoded keep_size := by
  cases keep_size <;> exact ⟨Nat.one_ne_zero, rfl, rfl, rfl⟩
